import Mathlib

/-!
# DeepDrift chat client (`src/ai/app.js`)

A shallow embedding of the browser chat controller: the module-level
variables and the DOM properties the script reads or writes become one
record, every JavaScript function becomes a state transformer, and the
asynchronous parts (`await pipeline(...)`, `await generator(...)`) are split
at the `await` into the synchronous prefix and the continuation that runs
when the promise settles.  The external collaborators (the inference
pipeline, the user, the browser) are the environment: they choose the events
of a trace.

Calls without an effect on the variables and properties below are left out:
`console.error`, the scrolling of the transcript, the options object passed
to the generator next to the prompt.

JavaScript strings are modelled by `String` (sequences of code points; the
program only concatenates, trims and compares them).  Chart samples are
JavaScript numbers; they are modelled by rationals, which is exact for the
window bookkeeping (`shift`/`push`) the development is about; the value of a
sample and the colour threshold are computed in exact arithmetic, and no
result below depends on them.
-/

namespace DeepDrift

/-! ## Data model -/

/-- One element of `chatHistory`: the object literal with `role` and `content`. -/
structure Turn where
  role : String
  content : String
deriving DecidableEq

/-- A child `div` of `chatEl`, as created by `addMessage`. -/
structure Message where
  className : String
  textContent : String
deriving DecidableEq

/-- A value caught by a `catch (error)` clause, seen through the only thing
the program does with it: reading `error.message`.
* `withMessage m`: an object whose `message` is the string `m` (every `Error`);
* `other r`: a non-nullish value whose `message` is not a string and is
  rendered as `r` by string conversion (for a thrown string: "undefined");
* `nullish`: `null` or `undefined`, on which the property read itself throws. -/
inductive Thrown where
  | withMessage (message : String)
  | other (rendering : String)
  | nullish
deriving DecidableEq

/-- How the promise returned by `generator(prompt, options)` settles.
`resolved g` is fulfilment with an array whose first element has
`generated_text = g`; `rejected e` is rejection with `e` (an ill-shaped
fulfilment value makes `output[0].generated_text` throw inside the `try`,
which the program cannot tell from a rejection). -/
inductive GenOutcome where
  | resolved (generated_text : String)
  | rejected (error : Thrown)
deriving DecidableEq

/-- How the promise returned by `pipeline(...)` settles; `gpu` is the
truthiness of `navigator.gpu` at the time the `catch` block runs. -/
inductive PipelineOutcome where
  | resolved
  | rejected (error : Thrown) (gpu : Bool)
deriving DecidableEq

/-- The local variables of one suspended `runInference` activation that its
callback and its continuation still use: the `div` it created for the answer
(as a position among the children of `chatEl`) and `tokenCount`. -/
structure Session where
  aiMsgDiv : Nat
  tokenCount : Nat
deriving DecidableEq

/-- Module state together with the DOM and chart properties the script uses. -/
structure State where
  /-- Whether `generator` is non-null. -/
  generator : Bool
  chatHistory : List Turn
  /-- The variable `abortController`: `none` is `null`, `some b` a controller with `signal.aborted = b`. -/
  abortController : Option Bool
  isGenerating : Bool
  /-- Property `inputEl.value`. -/
  inputValue : String
  /-- Property `inputEl.disabled`. -/
  inputDisabled : Bool
  /-- Property `sendBtn.style.display`. -/
  sendDisplay : String
  /-- Property `sendBtn.disabled`. -/
  sendDisabled : Bool
  /-- Property `sendBtn.textContent`. -/
  sendText : String
  /-- Whether `stopBtn.classList` contains `active`. -/
  stopActive : Bool
  /-- Property `statusEl.textContent`. -/
  statusText : String
  /-- Property `statusEl.style.borderColor`. -/
  statusColor : String
  /-- The children of `chatEl`. -/
  chat : List Message
  /-- The array `chart.data.datasets[0].data`. -/
  chartData : List ℚ
  /-- Property `chart.data.datasets[0].borderColor`. -/
  borderColor : String
  /-- Property `chart.data.datasets[0].backgroundColor`. -/
  backgroundColor : String
  /-- Property `chart.options.animation`. -/
  chartAnimation : Bool
  /-- Number of `chart.update()` calls so far. -/
  chartUpdates : Nat
  /-- The `runInference` activations suspended at `await generator(...)`. -/
  sessions : List Session
  /-- Whether `initAI` is suspended at `await pipeline(...)`. -/
  initPending : Bool
  /-- The prompts handed to `generator`, oldest first. -/
  generatorCalls : List String
deriving DecidableEq

/-- What the document provides before the script runs (not part of the
script): the initial properties of the elements it looks up. -/
structure Html where
  inputValue : String
  inputDisabled : Bool
  sendDisplay : String
  sendDisabled : Bool
  sendText : String
  stopActive : Bool
  statusText : String
  statusColor : String
  chat : List Message
deriving DecidableEq

/-- The state after the top-level declarations (lines 8-52) have run. -/
def initialState (html : Html) : State :=
  { generator := false
    chatHistory := []
    abortController := none
    isGenerating := false
    inputValue := html.inputValue
    inputDisabled := html.inputDisabled
    sendDisplay := html.sendDisplay
    sendDisabled := html.sendDisabled
    sendText := html.sendText
    stopActive := html.stopActive
    statusText := html.statusText
    statusColor := html.statusColor
    chat := html.chat
    chartData := List.replicate 60 0
    borderColor := "#00f0ff"
    backgroundColor := "rgba(0, 240, 255, 0.1)"
    chartAnimation := false
    chartUpdates := 0
    sessions := []
    initPending := false
    generatorCalls := [] }

/-! ## Strings -/

/-- The code points removed by `String.prototype.trim`: ECMAScript
`WhiteSpace` (TAB, VT, FF, SP, NBSP, ZWNBSP and the space separators) and
`LineTerminator` (LF, CR, LS, PS). -/
def isJsWhitespace (c : Char) : Bool :=
  let n := c.toNat
  n == 0x09 || n == 0x0A || n == 0x0B || n == 0x0C || n == 0x0D || n == 0x20 ||
  n == 0xA0 || n == 0x1680 || (0x2000 ≤ n && n ≤ 0x200A) || n == 0x2028 ||
  n == 0x2029 || n == 0x202F || n == 0x205F || n == 0x3000 || n == 0xFEFF

/-- The method `String.prototype.trim` on a list of code points. -/
def trimChars (cs : List Char) : List Char :=
  ((cs.dropWhile isJsWhitespace).reverse.dropWhile isJsWhitespace).reverse

/-- The call `s.trim()`. -/
def jsTrim (s : String) : String :=
  String.mk (trimChars s.data)

/-! ## Utility functions -/

/-- Function `addMessage(text, className)`: appends a `div` to `chatEl`; the returned
element is the new last child, at position `s.chat.length`. -/
def addMessage (s : State) (text className : String) : State × Nat :=
  ({ s with chat := s.chat ++ [{ className := "message " ++ className, textContent := text }] },
   s.chat.length)

/-- Assignment to `div.textContent` for the child at position `i`; `f` maps
the old text to the new one (`=` is a constant `f`, `+=` an append). -/
def setTextContent : List Message → Nat → (String → String) → List Message
  | [], _, _ => []
  | m :: ms, 0, f => { m with textContent := f m.textContent } :: ms
  | m :: ms, i + 1, f => m :: setTextContent ms i f

/-- Function `updateChart(value)`: `shift`, `push`, the colour of the series
(both branches of the `if` assign the same two properties), `chart.update()`. -/
def updateChart (s : State) (value : ℚ) : State :=
  { s with
    chartData := s.chartData.tail ++ [value]
    borderColor := if value > 1.2 then "#ff3333" else "#00f0ff"
    backgroundColor := if value > 1.2 then "rgba(255, 50, 50, 0.2)" else "rgba(0, 240, 255, 0.1)"
    chartUpdates := s.chartUpdates + 1 }

/-- Function `updateStatus(text, color)`. -/
def updateStatus (s : State) (text : String) (color : String) : State :=
  { s with statusText := text, statusColor := color }

/-- Function `toggleButtons(generating)`. -/
def toggleButtons (s : State) (generating : Bool) : State :=
  { s with
    isGenerating := generating
    sendDisplay := if generating then "none" else "block"
    stopActive := generating
    inputDisabled := generating }

/-! ## Model initialisation -/

/-- Function `initAI()` up to `await pipeline(...)`. -/
def initAI (s : State) : State :=
  { updateStatus s "Loading Model..." "#ffaa00" with initPending := true }

/-- The rest of `initAI` once the `pipeline` promise has settled. -/
def initAIResume (s : State) : PipelineOutcome → State
  | .resolved =>
    let s := { s with generator := true }
    let s := { s with sendDisabled := false }
    let s := { s with sendText := "SEND" }
    let s := updateStatus s "ONLINE" "#00ff00"
    (addMessage s "DeepDrift node online. Neural link established." "ai-msg").1
  | .rejected error gpu =>
    let s := updateStatus s "ERROR" "#ff0000"
    let errorMsg := "Failed to load AI model. "
    if !gpu then
      (addMessage s
        (errorMsg ++ "WebGPU not supported. Try Chrome/Edge on desktop or Android.") "ai-msg").1
    else
      match error with
      | .withMessage m => (addMessage s (errorMsg ++ m) "ai-msg").1
      | .other r => (addMessage s (errorMsg ++ r) "ai-msg").1
      | .nullish => s

/-! ## Prompt construction -/

/-- The call `chatHistory.slice(-n)` (the program uses `n = 3`): the elements from index
`max (length - n) 0` on. -/
def sliceLast (n : Nat) (h : List Turn) : List Turn :=
  h.drop (h.length - n)

/-- Function `buildPrompt(userText)`; it reads `chatHistory` and assigns only to its
own local `prompt`. -/
def buildPrompt (s : State) (userText : String) : String :=
  let prompt := "<|im_start|>system\nYou are a helpful AI assistant.<|im_end|>\n"
  let recentHistory := sliceLast 3 s.chatHistory
  let prompt := recentHistory.foldl
    (fun prompt msg => prompt ++ ("<|im_start|>" ++ msg.role ++ "\n" ++ msg.content ++ "<|im_end|>\n"))
    prompt
  prompt ++ ("<|im_start|>user\n" ++ userText ++ "<|im_end|>\n<|im_start|>assistant\n")

/-! ## Inference -/

/-- Function `runInference()` up to `await generator(prompt, options)`: the guard,
the UI update, the two transcript entries, the history push, the new abort
controller, the prompt and the call itself.  The activation is then
suspended and recorded in `sessions`. -/
def runInference (s : State) : State :=
  let userText := jsTrim s.inputValue
  if userText = "" ∨ s.generator = false ∨ s.isGenerating = true then s
  else
    let s := { s with inputValue := "" }
    let s := toggleButtons s true
    let s := (addMessage s userText "user-msg").1
    let r := addMessage s "Thinking..." "ai-msg"
    let s := r.1
    let aiMsgDiv := r.2
    let s := { s with chatHistory := s.chatHistory ++ [Turn.mk "user" userText] }
    let s := { s with abortController := some false }
    let prompt := buildPrompt s userText
    { s with
      generatorCalls := s.generatorCalls ++ [prompt]
      sessions := s.sessions ++ [{ aiMsgDiv := aiMsgDiv, tokenCount := 0 }] }

/-- The message of the error thrown by the callback when it finds the stop
request. -/
def stoppedMessage : String := "Generation stopped by user"

/-- The message of the `TypeError` raised by reading `.signal` of `null`
(its wording depends on the engine). -/
def nullSignalMessage : String := "abortController is null"

/-- The arrow function passed as `callback_function`, run by the generator
once per step.  `random` is the value of `Math.random()`.  The result is
either the thrown value or the new state and the new `tokenCount`. -/
def callback_function (s : State) (sess : Session) (random : ℚ) :
    Except Thrown (State × Session) :=
  match s.abortController with
  | none => .error (.withMessage nullSignalMessage)
  | some true => .error (.withMessage stoppedMessage)
  | some false =>
    let tokenCount := sess.tokenCount + 1
    let entropy := random * 0.5
    let activity := min 2.5 (entropy + ((tokenCount % 10 : ℕ) : ℚ) / 10)
    .ok (updateChart s activity, { sess with tokenCount := tokenCount })

/-- The rest of `runInference` once the generator promise has settled: the
end of the `try` block or the `catch` block, then the `finally` block.  For
a nullish thrown value the `catch` block itself throws at `error.message`
and only the `finally` block runs. -/
def runInferenceResume (s : State) (sess : Session) (o : GenOutcome) : State :=
  let s :=
    match o with
    | .resolved generatedText =>
      let s := { s with chat := setTextContent s.chat sess.aiMsgDiv (fun _ => generatedText) }
      { s with chatHistory := s.chatHistory ++ [Turn.mk "assistant" generatedText] }
    | .rejected (.withMessage m) =>
      if m = stoppedMessage then
        { s with chat := setTextContent s.chat sess.aiMsgDiv (fun t => t ++ " [STOPPED]") }
      else
        { s with chat := setTextContent s.chat sess.aiMsgDiv (fun _ => "Error: " ++ m) }
    | .rejected (.other r) =>
      { s with chat := setTextContent s.chat sess.aiMsgDiv (fun _ => "Error: " ++ r) }
    | .rejected .nullish => s
  let s := toggleButtons s false
  { s with abortController := none }

/-- Function `stopInference()`. -/
def stopInference (s : State) : State :=
  match s.abortController with
  | some _ => { s with abortController := some true }
  | none => s

/-! ## Events -/

/-- What the user (or the browser on the user's behalf) can do. -/
inductive UserEvent where
  /-- The text of the input field is replaced. -/
  | input (value : String)
  /-- A click on `sendBtn`, or a call of the exported `window.runInference`. -/
  | send
  /-- A click on `stopBtn`, or a call of the exported `window.stopInference`. -/
  | stop
  /-- A key press in the input field; `key` is `e.key`. -/
  | keypress (key : String)
  /-- The document becomes hidden or visible; `hidden` is `document.hidden`. -/
  | visibilitychange (hidden : Bool)
deriving DecidableEq

/-- Everything that can run code of the script after it has loaded. -/
inductive Event where
  | user (e : UserEvent)
  /-- The generator runs the callback of the suspended activation `i`. -/
  | callback (i : Nat) (random : ℚ)
  /-- The generator promise of the suspended activation `i` settles. -/
  | generatorSettled (i : Nat) (o : GenOutcome)
  /-- The `pipeline` promise settles. -/
  | pipelineSettled (o : PipelineOutcome)
deriving DecidableEq

/-- The listeners registered at lines 213-229. -/
def userStep (s : State) : UserEvent → State
  | .input value => { s with inputValue := value }
  | .send => runInference s
  | .stop => stopInference s
  | .keypress key =>
    if key = "Enter" ∧ s.sendDisabled = false ∧ s.isGenerating = false then runInference s else s
  | .visibilitychange hidden =>
    if hidden then { s with chartAnimation := false }
    else { s with chartUpdates := s.chartUpdates + 1 }

/-- One event.  A callback that throws changes nothing (it throws before any
assignment); what the generator does with the thrown value is a later
`generatorSettled` event.  Events for an activation that is not suspended,
or for a `pipeline` promise that is not pending, cannot occur and are
ignored. -/
def step (s : State) : Event → State
  | .user e => userStep s e
  | .callback i random =>
    match s.sessions[i]? with
    | none => s
    | some sess =>
      match callback_function s sess random with
      | .error _ => s
      | .ok r => { r.1 with sessions := r.1.sessions.set i r.2 }
  | .generatorSettled i o =>
    match s.sessions[i]? with
    | none => s
    | some sess => runInferenceResume { s with sessions := s.sessions.eraseIdx i } sess o
  | .pipelineSettled o =>
    if s.initPending then initAIResume { s with initPending := false } o else s

/-- A trace of events, oldest first. -/
def run (s : State) (evs : List Event) : State :=
  evs.foldl step s

/-- The state once the script has been evaluated: the declarations, then the
call `initAI()` on the last lines, which runs up to its `await`. -/
def boot (html : Html) : State :=
  initAI (initialState html)

/-- Several `updateChart` calls in a row, oldest sample first. -/
def pushSamples (s : State) (vs : List ℚ) : State :=
  vs.foldl updateChart s

/-! ## The specification's wording -/

/-- The `n` most recent turns of a history, in their original order. -/
def recent (h : List Turn) (n : Nat) : List Turn :=
  (h.reverse.take n).reverse

/-- One block of the chat template. -/
def renderTurn (t : Turn) : String :=
  "<|im_start|>" ++ t.role ++ "\n" ++ t.content ++ "<|im_end|>\n"

/-- Concatenation of a list of strings, first to last. -/
def concatAll : List String → String
  | [] => ""
  | x :: xs => x ++ concatAll xs

/-- The prompt as the specification describes it: the system preamble, one
block per turn of `turns`, the new user turn, the open assistant tag. -/
def promptOf (turns : List Turn) (u : String) : String :=
  "<|im_start|>system\nYou are a helpful AI assistant.<|im_end|>\n" ++
    concatAll (turns.map renderTurn) ++
    ("<|im_start|>user\n" ++ u ++ "<|im_end|>\n<|im_start|>assistant\n")

/-- The controller state `Ready` with nothing in flight. -/
def Ready (s : State) : Prop :=
  s.isGenerating = false ∧ s.inputDisabled = false ∧ s.sendDisplay = "block" ∧
    s.stopActive = false ∧ s.abortController = none

instance (s : State) : Decidable (Ready s) := by
  unfold Ready; infer_instance

/-- A sample document: empty field, send button disabled until the model is loaded. -/
def sampleHtml : Html :=
  { inputValue := ""
    inputDisabled := false
    sendDisplay := ""
    sendDisabled := true
    sendText := "LOADING"
    stopActive := false
    statusText := "INIT"
    statusColor := ""
    chat := [] }

/-- The activity sample computed by the callback for its `tokenCount`-th
step (counted from one) when `Math.random()` returned `random`. -/
def activityOf (tokenCount : Nat) (random : ℚ) : ℚ :=
  min 2.5 (random * 0.5 + ((tokenCount % 10 : ℕ) : ℚ) / 10)

/-- What holds in every state the script can reach: the suspended
activations are exactly the one announced by `isGenerating`, and the model
is still absent while its loading is pending. -/
structure Inv (s : State) : Prop where
  sessions_length : s.sessions.length = if s.isGenerating = true then 1 else 0
  loading : s.initPending = true → s.generator = false

/-- Whether the event settles a generator promise. -/
def Event.isGeneratorSettled : Event → Bool
  | .generatorSettled _ _ => true
  | _ => false

/-- The states between the call of the generator by one activation and the
settlement of its promise: `c`, `h` and `calls` are the transcript, the
history and the generator calls right after the call, `idx` the position of
the pending answer, and `stopped` tells that `stopInference` has run since. -/
structure MidRun (c : List Message) (h : List Turn) (calls : List String) (idx : Nat)
    (stopped : Bool) (s : State) : Prop where
  chat : s.chat = c
  chatHistory : s.chatHistory = h
  generatorCalls : s.generatorCalls = calls
  sessions : ∃ k, s.sessions = [Session.mk idx k]
  isGenerating : s.isGenerating = true
  generator : s.generator = true
  initPending : s.initPending = false
  abort : ∃ b, s.abortController = some b ∧ (stopped = true → b = true)

/-- The states while the model is loading; `d` is the initial value of `sendBtn.disabled`. -/
structure Loading (d : Bool) (s : State) : Prop where
  generator : s.generator = false
  initPending : s.initPending = true
  sessions : s.sessions = []
  isGenerating : s.isGenerating = false
  chatHistory : s.chatHistory = []
  generatorCalls : s.generatorCalls = []
  sendDisabled : s.sendDisabled = d
  abortController : s.abortController = none

/-- The states after the loading of the model has failed. -/
structure Failed (d : Bool) (s : State) : Prop where
  generator : s.generator = false
  initPending : s.initPending = false
  sessions : s.sessions = []
  isGenerating : s.isGenerating = false
  chatHistory : s.chatHistory = []
  generatorCalls : s.generatorCalls = []
  sendDisabled : s.sendDisabled = d
  abortController : s.abortController = none
  statusText : s.statusText = "ERROR"

/-- The string that reading `error.message` contributes to the template
literal of the `catch` block: the message itself, or the rendering of a
message that is not a string; `none` when the read throws (`null`,
`undefined`). -/
def Thrown.messageText : Thrown → Option String
  | .withMessage m => some m
  | .other r => some r
  | .nullish => none

/-- Whether a transcript text carries the stop annotation at its end. -/
def endsWithStopped (t : String) : Bool :=
  " [STOPPED]".data.isSuffixOf t.data

/-- The text of the last transcript entry (empty when there is none). -/
def lastText (s : State) : String :=
  match s.chat.getLast? with
  | some m => m.textContent
  | none => ""

/-- A sample reachable state: the model has loaded and the user has typed "Hello". -/
def readyState : State :=
  run (boot sampleHtml) [.pipelineSettled .resolved, .user (.input "Hello")]

/-- Sixty-one samples, 0 to 60. -/
def sampleRun : List ℚ :=
  List.map (fun n : ℕ => (n : ℚ)) (List.range 61)

/-! ## Auxiliary lemmas -/

theorem sliceLast_eq_recent (n : Nat) (h : List Turn) : sliceLast n h = recent h n := by
  unfold sliceLast recent
  rw [List.take_reverse, List.reverse_reverse]

theorem recent_length (h : List Turn) (n : Nat) : (recent h n).length = min n h.length := by
  simp [recent]

theorem recent_suffix (h : List Turn) (n : Nat) : recent h n <:+ h := by
  rw [← sliceLast_eq_recent]
  exact List.drop_suffix _ _

theorem sliceLast_snoc (n : Nat) (h : List Turn) (t : Turn) :
    sliceLast (n + 1) (h ++ [t]) = sliceLast n h ++ [t] := by
  unfold sliceLast
  have e : (h ++ [t]).length - (n + 1) = h.length - n := by simp
  rw [e, List.drop_append_of_le_length (Nat.sub_le _ _)]

theorem foldl_blocks (l : List Turn) (p : String) :
    l.foldl (fun prompt msg =>
        prompt ++ ("<|im_start|>" ++ msg.role ++ "\n" ++ msg.content ++ "<|im_end|>\n")) p
      = p ++ concatAll (l.map renderTurn) := by
  induction l generalizing p with
  | nil => simp [concatAll]
  | cons t l ih =>
    rw [List.foldl_cons, ih, List.map_cons, concatAll, String.append_assoc]
    rfl

theorem buildPrompt_eq (s : State) (u : String) :
    buildPrompt s u = promptOf (recent s.chatHistory 3) u := by
  unfold buildPrompt promptOf
  simp only [foldl_blocks, sliceLast_eq_recent]

theorem concatAll_snoc (l : List String) (x : String) :
    concatAll (l ++ [x]) = concatAll l ++ x := by
  induction l with
  | nil => simp [concatAll]
  | cons y l ih => simp [concatAll, ih, String.append_assoc]

/-! ### The activity window -/

theorem tail_append_drop (l vs : List ℚ) (v : ℚ) (h : l ≠ []) :
    (l.tail ++ [v] ++ vs).drop vs.length = (l ++ v :: vs).drop (vs.length + 1) := by
  cases l with
  | nil => exact absurd rfl h
  | cons a l => simp

theorem pushSamples_chartData (s : State) (vs : List ℚ) (h : s.chartData ≠ []) :
    (pushSamples s vs).chartData = (s.chartData ++ vs).drop vs.length := by
  induction vs generalizing s with
  | nil => simp [pushSamples]
  | cons v vs ih =>
    have h1 : (updateChart s v).chartData ≠ [] := by simp [updateChart]
    have h2 := ih (updateChart s v) h1
    unfold pushSamples at h2 ⊢
    rw [List.foldl_cons, h2]
    exact tail_append_drop s.chartData vs v h

theorem pushSamples_length (s : State) (vs : List ℚ) (h : s.chartData ≠ []) :
    (pushSamples s vs).chartData.length = s.chartData.length := by
  rw [pushSamples_chartData s vs h]
  simp

/-! ### Trimming -/

theorem trimChars_whitespace (cs : List Char) (h : ∀ c ∈ cs, isJsWhitespace c = true) :
    trimChars cs = [] := by
  have e : cs.dropWhile isJsWhitespace = [] := List.dropWhile_eq_nil_iff.mpr h
  simp [trimChars, e]

theorem jsTrim_whitespace (v : String) (h : ∀ c ∈ v.data, isJsWhitespace c = true) :
    jsTrim v = "" := by
  unfold jsTrim
  rw [trimChars_whitespace v.data h]

/-! ### The transcript -/

theorem setTextContent_pending (c : List Message) (a b : Message) (f : String → String) :
    setTextContent (c ++ [a, b]) (c.length + 1) f
      = c ++ [a, { b with textContent := f b.textContent }] := by
  induction c with
  | nil => rfl
  | cons x c ih => simp [setTextContent, ih]

/-! ### The guard of `runInference` -/

theorem runInference_blocked (s : State)
    (h : jsTrim s.inputValue = "" ∨ s.generator = false ∨ s.isGenerating = true) :
    runInference s = s := by
  unfold runInference
  simp only [h, if_true]

theorem runInference_pass (s : State) (h1 : jsTrim s.inputValue ≠ "")
    (h2 : s.generator = true) (h3 : s.isGenerating = false) :
    runInference s =
      { s with
        inputValue := ""
        isGenerating := true
        sendDisplay := "none"
        stopActive := true
        inputDisabled := true
        chat := s.chat ++ [Message.mk "message user-msg" (jsTrim s.inputValue),
          Message.mk "message ai-msg" "Thinking..."]
        chatHistory := s.chatHistory ++ [Turn.mk "user" (jsTrim s.inputValue)]
        abortController := some false
        generatorCalls := s.generatorCalls ++
          [promptOf (recent (s.chatHistory ++ [Turn.mk "user" (jsTrim s.inputValue)]) 3)
            (jsTrim s.inputValue)]
        sessions := s.sessions ++ [Session.mk (s.chat.length + 1) 0] } := by
  unfold runInference
  have hg : ¬ (jsTrim s.inputValue = "" ∨ s.generator = false ∨ s.isGenerating = true) := by
    simp [h1, h2, h3]
  simp only [hg, if_false, buildPrompt_eq, toggleButtons, addMessage]
  simp

/-! ### Invariants of the reachable states -/

theorem Inv.sessions_nil {s : State} (h : Inv s) (hg : s.isGenerating = false) :
    s.sessions = [] := by
  have := h.sessions_length
  simp [hg] at this
  exact this

theorem inv_boot (html : Html) : Inv (boot html) := by
  constructor <;> simp [boot, initAI, updateStatus, initialState]

theorem inv_runInference {s : State} (h : Inv s) : Inv (runInference s) := by
  by_cases hg : jsTrim s.inputValue = "" ∨ s.generator = false ∨ s.isGenerating = true
  · rw [runInference_blocked s hg]; exact h
  · simp only [not_or, Bool.not_eq_false, Bool.not_eq_true] at hg
    rw [runInference_pass s hg.1 hg.2.1 hg.2.2]
    constructor
    · simp [h.sessions_nil hg.2.2]
    · intro hp
      have := h.loading hp
      simp [hg.2.1] at this

theorem inv_userStep {s : State} (h : Inv s) (e : UserEvent) : Inv (userStep s e) := by
  cases e with
  | input v => exact ⟨h.sessions_length, h.loading⟩
  | send => exact inv_runInference h
  | stop =>
    simp only [userStep, stopInference]
    cases s.abortController <;> exact ⟨h.sessions_length, h.loading⟩
  | keypress key =>
    simp only [userStep]
    split
    · exact inv_runInference h
    · exact h
  | visibilitychange hidden =>
    simp only [userStep]
    split <;> exact ⟨h.sessions_length, h.loading⟩

theorem step_callback (s : State) (i : Nat) (random : ℚ) :
    step s (.callback i random) = s ∨
      ∃ sess, s.sessions[i]? = some sess ∧ s.abortController = some false ∧
        step s (.callback i random) =
          { updateChart s (activityOf (sess.tokenCount + 1) random) with
            sessions := s.sessions.set i (Session.mk sess.aiMsgDiv (sess.tokenCount + 1)) } := by
  simp only [step]
  cases hs : s.sessions[i]? with
  | none => exact Or.inl rfl
  | some sess =>
    cases ha : s.abortController with
    | none => left; simp [callback_function, ha]
    | some b =>
      cases b with
      | true => left; simp [callback_function, ha]
      | false =>
        right
        refine ⟨sess, rfl, rfl, ?_⟩
        simp [callback_function, ha, activityOf, updateChart]

theorem step_generatorSettled (s : State) (i : Nat) (o : GenOutcome) :
    (s.sessions[i]? = none ∧ step s (.generatorSettled i o) = s) ∨
      ∃ sess, s.sessions[i]? = some sess ∧
        step s (.generatorSettled i o) =
          runInferenceResume { s with sessions := s.sessions.eraseIdx i } sess o := by
  simp only [step]
  cases hs : s.sessions[i]? with
  | none => exact Or.inl ⟨rfl, rfl⟩
  | some sess => exact Or.inr ⟨sess, rfl, rfl⟩

theorem resume_fields (s : State) (sess : Session) (o : GenOutcome) :
    let t := runInferenceResume s sess o
    t.isGenerating = false ∧ t.inputDisabled = false ∧ t.sendDisplay = "block" ∧
      t.stopActive = false ∧ t.abortController = none ∧ t.sessions = s.sessions ∧
      t.generator = s.generator ∧ t.initPending = s.initPending ∧
      t.generatorCalls = s.generatorCalls ∧ t.statusText = s.statusText ∧
      t.sendDisabled = s.sendDisabled ∧ t.chartData = s.chartData := by
  rcases o with g | e
  · simp [runInferenceResume, toggleButtons]
  · rcases e with m | r | _
    · by_cases hm : m = stoppedMessage <;> simp [runInferenceResume, toggleButtons, hm]
    · simp [runInferenceResume, toggleButtons]
    · simp [runInferenceResume, toggleButtons]

theorem initAIResume_fields (s : State) (o : PipelineOutcome) :
    let t := initAIResume s o
    t.isGenerating = s.isGenerating ∧ t.sessions = s.sessions ∧
      t.initPending = s.initPending ∧ t.chatHistory = s.chatHistory ∧
      t.abortController = s.abortController ∧ t.generatorCalls = s.generatorCalls ∧
      t.chartData = s.chartData := by
  rcases o with _ | ⟨e, gpu⟩
  · simp [initAIResume, updateStatus, addMessage]
  · cases gpu <;> rcases e with m | r | _ <;> simp [initAIResume, updateStatus, addMessage]

theorem inv_step {s : State} (h : Inv s) (e : Event) : Inv (step s e) := by
  cases e with
  | user e => exact inv_userStep h e
  | callback i random =>
    rcases step_callback s i random with e | ⟨sess, _, _, e⟩
    · rw [e]; exact h
    · rw [e]
      constructor
      · simpa [updateChart] using h.sessions_length
      · simpa [updateChart] using h.loading
  | generatorSettled i o =>
    rcases step_generatorSettled s i o with ⟨_, e⟩ | ⟨sess, hs, e⟩
    · rw [e]; exact h
    · rw [e]
      have hi : i < s.sessions.length := (List.getElem?_eq_some_iff.mp hs).1
      have hl := h.sessions_length
      have hgen : s.isGenerating = true := by
        by_contra hc
        simp [hc] at hl
        simp [hl] at hi
      have h1 : s.sessions.length = 1 := by simpa [hgen] using hl
      have h0 : (s.sessions.eraseIdx i).length = 0 := by
        rw [List.length_eraseIdx, if_pos hi, h1]
      have hf := resume_fields { s with sessions := s.sessions.eraseIdx i } sess o
      simp only at hf
      constructor
      · rw [hf.2.2.2.2.2.1, hf.1]; simpa using h0
      · rw [hf.2.2.2.2.2.2.2.1, hf.2.2.2.2.2.2.1]; exact h.loading
  | pipelineSettled o =>
    simp only [step]
    split
    · have hf := initAIResume_fields { s with initPending := false } o
      simp only at hf
      constructor
      · rw [hf.2.1, hf.1]; exact h.sessions_length
      · rw [hf.2.2.1]; simp
    · exact h

theorem inv_run {s : State} (h : Inv s) (evs : List Event) : Inv (run s evs) := by
  induction evs generalizing s with
  | nil => exact h
  | cons e evs ih => exact ih (inv_step h e)

theorem run_append (s : State) (evs1 evs2 : List Event) :
    run s (evs1 ++ evs2) = run (run s evs1) evs2 := by
  simp [run, List.foldl_append]

/-! ### Between the call of the generator and its settlement -/

theorem midRun_start {s : State} (hi : Inv s) (h1 : jsTrim s.inputValue ≠ "")
    (h2 : s.generator = true) (h3 : s.isGenerating = false) :
    MidRun
      (s.chat ++ [Message.mk "message user-msg" (jsTrim s.inputValue),
        Message.mk "message ai-msg" "Thinking..."])
      (s.chatHistory ++ [Turn.mk "user" (jsTrim s.inputValue)])
      (s.generatorCalls ++
        [promptOf (recent (s.chatHistory ++ [Turn.mk "user" (jsTrim s.inputValue)]) 3)
          (jsTrim s.inputValue)])
      (s.chat.length + 1) false (runInference s) := by
  rw [runInference_pass s h1 h2 h3]
  have hp : s.initPending = false := by
    by_contra hc
    have := hi.loading (by simpa using hc)
    simp [h2] at this
  constructor <;> simp [hi.sessions_nil h3, hp, h2]

theorem midRun_userStep {c : List Message} {h : List Turn} {calls : List String} {idx : Nat}
    {stopped : Bool} {s : State} (hm : MidRun c h calls idx stopped s) (e : UserEvent) :
    MidRun c h calls idx stopped (userStep s e) := by
  have hb : runInference s = s := runInference_blocked s (Or.inr (Or.inr hm.isGenerating))
  cases e with
  | input v => exact ⟨hm.1, hm.2, hm.3, hm.4, hm.5, hm.6, hm.7, hm.8⟩
  | send => simp only [userStep, hb]; exact hm
  | stop =>
    simp only [userStep, stopInference]
    rcases hm.abort with ⟨b, hb1, _⟩
    rw [hb1]
    exact ⟨hm.1, hm.2, hm.3, hm.4, hm.5, hm.6, hm.7, ⟨true, rfl, fun _ => rfl⟩⟩
  | keypress key =>
    simp only [userStep, hb]
    split <;> exact hm
  | visibilitychange hidden =>
    simp only [userStep]
    split <;> exact ⟨hm.1, hm.2, hm.3, hm.4, hm.5, hm.6, hm.7, hm.8⟩

theorem midRun_stop {c : List Message} {h : List Turn} {calls : List String} {idx : Nat}
    {stopped : Bool} {s : State} (hm : MidRun c h calls idx stopped s) :
    MidRun c h calls idx true (step s (.user .stop)) := by
  simp only [step, userStep, stopInference]
  rcases hm.abort with ⟨b, hb1, _⟩
  rw [hb1]
  exact ⟨hm.1, hm.2, hm.3, hm.4, hm.5, hm.6, hm.7, ⟨true, rfl, fun _ => rfl⟩⟩

theorem midRun_step {c : List Message} {h : List Turn} {calls : List String} {idx : Nat}
    {stopped : Bool} {s : State} (hm : MidRun c h calls idx stopped s) (e : Event)
    (he : e.isGeneratorSettled = false) : MidRun c h calls idx stopped (step s e) := by
  cases e with
  | user e => exact midRun_userStep hm e
  | callback i random =>
    rcases step_callback s i random with e | ⟨sess, hs, ha, e⟩
    · rw [e]; exact hm
    · rw [e]
      rcases hm.sessions with ⟨k, hk⟩
      have hi : i = 0 := by
        have := (List.getElem?_eq_some_iff.mp hs).1
        simp [hk] at this
        exact this
      subst hi
      have hsess : sess = Session.mk idx k := by
        simp [hk] at hs
        exact hs.symm
      subst hsess
      refine ⟨hm.1, hm.2, hm.3, ⟨k + 1, ?_⟩, hm.5, hm.6, hm.7, ?_⟩
      · simp [updateChart, hk]
      · simpa [updateChart] using hm.abort
  | generatorSettled i o => simp [Event.isGeneratorSettled] at he
  | pipelineSettled o =>
    simp only [step, hm.initPending]
    exact hm

theorem midRun_run {c : List Message} {h : List Turn} {calls : List String} {idx : Nat}
    {stopped : Bool} {s : State} (hm : MidRun c h calls idx stopped s) (evs : List Event)
    (he : ∀ e ∈ evs, e.isGeneratorSettled = false) :
    MidRun c h calls idx stopped (run s evs) := by
  induction evs generalizing s with
  | nil => exact hm
  | cons e evs ih =>
    exact ih (midRun_step hm e (he e (List.mem_cons_self _ _)))
      (fun e1 h1 => he e1 (List.mem_cons_of_mem _ h1))

theorem midRun_settle {c : List Message} {h : List Turn} {calls : List String} {idx : Nat}
    {stopped : Bool} {s : State} (hm : MidRun c h calls idx stopped s) (o : GenOutcome) :
    ∃ k, step s (.generatorSettled 0 o) =
      runInferenceResume { s with sessions := [] } (Session.mk idx k) o := by
  rcases hm.sessions with ⟨k, hk⟩
  refine ⟨k, ?_⟩
  simp [step, hk]

/-! ### After a failed initialisation -/

theorem loading_boot (html : Html) : Loading html.sendDisabled (boot html) := by
  constructor <;> simp [boot, initAI, updateStatus, initialState]

theorem loading_userStep {d : Bool} {s : State} (h : Loading d s) (e : UserEvent) :
    Loading d (userStep s e) := by
  have hb : runInference s = s := runInference_blocked s (Or.inr (Or.inl h.generator))
  cases e with
  | input v => exact ⟨h.1, h.2, h.3, h.4, h.5, h.6, h.7, h.8⟩
  | send => simp only [userStep, hb]; exact h
  | stop => simp only [userStep, stopInference, h.abortController]; exact h
  | keypress key =>
    simp only [userStep, hb]
    split <;> exact h
  | visibilitychange hidden =>
    simp only [userStep]
    split <;> exact ⟨h.1, h.2, h.3, h.4, h.5, h.6, h.7, h.8⟩

theorem loading_run {d : Bool} {s : State} (h : Loading d s) (evs : List UserEvent) :
    Loading d (run s (evs.map Event.user)) := by
  induction evs generalizing s with
  | nil => exact h
  | cons e evs ih => exact ih (loading_userStep h e)

theorem failed_of_rejected {d : Bool} {s : State} (h : Loading d s) (error : Thrown)
    (gpu : Bool) : Failed d (step s (.pipelineSettled (.rejected error gpu))) := by
  simp only [step, h.initPending, if_true]
  cases gpu <;> rcases error with m | r | _ <;>
    constructor <;>
    simp [initAIResume, updateStatus, addMessage, h.1, h.3, h.4, h.5, h.6, h.7, h.8]

theorem failed_userStep {d : Bool} {s : State} (h : Failed d s) (e : UserEvent) :
    Failed d (userStep s e) := by
  have hb : runInference s = s := runInference_blocked s (Or.inr (Or.inl h.generator))
  cases e with
  | input v => exact ⟨h.1, h.2, h.3, h.4, h.5, h.6, h.7, h.8, h.9⟩
  | send => simp only [userStep, hb]; exact h
  | stop => simp only [userStep, stopInference, h.abortController]; exact h
  | keypress key =>
    simp only [userStep, hb]
    split <;> exact h
  | visibilitychange hidden =>
    simp only [userStep]
    split <;> exact ⟨h.1, h.2, h.3, h.4, h.5, h.6, h.7, h.8, h.9⟩

theorem failed_step {d : Bool} {s : State} (h : Failed d s) (e : Event) :
    Failed d (step s e) := by
  cases e with
  | user e => exact failed_userStep h e
  | callback i random => simp only [step, h.sessions, List.getElem?_nil]; exact h
  | generatorSettled i o => simp only [step, h.sessions, List.getElem?_nil]; exact h
  | pipelineSettled o => simp only [step, h.initPending]; exact h

theorem failed_run {d : Bool} {s : State} (h : Failed d s) (evs : List Event) :
    Failed d (run s evs) := by
  induction evs generalizing s with
  | nil => exact h
  | cons e evs ih => exact ih (failed_step h e)

theorem user_tag_join (x : String) :
    "<|im_start|>" ++ ("user" ++ ("\n" ++ x)) = "<|im_start|>user\n" ++ x := by
  have e : "<|im_start|>" ++ "user" ++ "\n" = "<|im_start|>user\n" := by decide
  rw [← e, String.append_assoc, String.append_assoc]

theorem assistant_tag_split :
    "<|im_end|>\n<|im_start|>assistant\n" = "<|im_end|>\n" ++ "<|im_start|>assistant\n" := by
  decide

/-! ## The claims -/

/-- C1: for every state (hence every history `H = s.chatHistory`) and every
user text `u`, `buildPrompt` returns the system preamble, then one block
`<|im_start|>role\ncontent<|im_end|>\n` for each of the `min 3 |H|` most
recent turns of `H` in their original order, then the new user block and the
open assistant tag.  The value depends on the state through `H` only, and
`buildPrompt` returns nothing but the string, so `H` is left as it was. -/
theorem buildPrompt_spec (s : State) (u : String) :
    buildPrompt s u =
        "<|im_start|>system\nYou are a helpful AI assistant.<|im_end|>\n" ++
          concatAll ((recent s.chatHistory 3).map renderTurn) ++
          ("<|im_start|>user\n" ++ u ++ "<|im_end|>\n<|im_start|>assistant\n") ∧
      (∀ t, renderTurn t = "<|im_start|>" ++ t.role ++ "\n" ++ t.content ++ "<|im_end|>\n") ∧
      (recent s.chatHistory 3).length = min 3 s.chatHistory.length ∧
      recent s.chatHistory 3 <:+ s.chatHistory :=
  ⟨buildPrompt_eq s u, fun _ => rfl, recent_length _ _, recent_suffix _ _⟩

/-- C2: in every state reachable from the loaded page there is at most one
suspended generation, there is one exactly when `isGenerating` is set, and
while it is set a call of `runInference` returns the state as it is
(history, generator calls, abort controller and UI included), whatever the
input field holds. -/
theorem single_generating_session (html : Html) (evs : List Event) :
    (run (boot html) evs).sessions.length ≤ 1 ∧
      ((run (boot html) evs).isGenerating = true ↔ (run (boot html) evs).sessions.length = 1) ∧
      ((run (boot html) evs).isGenerating = true →
        ∀ v, runInference { run (boot html) evs with inputValue := v }
          = { run (boot html) evs with inputValue := v }) := by
  have hi := inv_run (inv_boot html) evs
  have hl := hi.sessions_length
  refine ⟨?_, ?_, ?_⟩
  · rw [hl]; split <;> simp
  · rw [hl]; split <;> simp_all
  · intro hg v
    exact runInference_blocked _ (Or.inr (Or.inr hg))

/-- Witness of C2: while the answer to "Hello" is being generated, a second
submission with the text "again" changes nothing. -/
theorem single_generating_session_witness :
    runInference { run (boot sampleHtml)
        [.pipelineSettled .resolved, .user (.input "Hello"), .user .send] with
        inputValue := "again" }
      = { run (boot sampleHtml)
        [.pipelineSettled .resolved, .user (.input "Hello"), .user .send] with
        inputValue := "again" } :=
  (single_generating_session sampleHtml
    [.pipelineSettled .resolved, .user (.input "Hello"), .user .send]).2.2 (by decide) "again"

/-- C3: whenever the generator promise of a suspended `runInference`
activation settles, by fulfilment, by the stop error or by any other thrown
value, the continuation ends in `Ready`: `isGenerating` is false, the input
is enabled, the send button is shown, the stop button is inactive and
`abortController` is null; the activation is no longer suspended. -/
theorem settle_restores_ready (s : State) (i : Nat) (o : GenOutcome)
    (h : i < s.sessions.length) :
    Ready (step s (.generatorSettled i o)) ∧
      (step s (.generatorSettled i o)).sessions = s.sessions.eraseIdx i := by
  rcases step_generatorSettled s i o with ⟨hn, _⟩ | ⟨sess, _, e⟩
  · rw [List.getElem?_eq_none_iff] at hn
    omega
  · rw [e]
    have hf := resume_fields { s with sessions := s.sessions.eraseIdx i } sess o
    simp only at hf
    exact ⟨⟨hf.1, hf.2.1, hf.2.2.1, hf.2.2.2.1, hf.2.2.2.2.1⟩, hf.2.2.2.2.2.1⟩

/-- Witness of C3: the generation started from `readyState` fails with a
nullish thrown value, and the controller is `Ready` again. -/
theorem settle_restores_ready_witness :
    Ready (step (runInference readyState) (.generatorSettled 0 (.rejected .nullish))) ∧
      (step (runInference readyState) (.generatorSettled 0 (.rejected .nullish))).sessions
        = (runInference readyState).sessions.eraseIdx 0 :=
  settle_restores_ready (runInference readyState) 0 (.rejected .nullish) (by decide)

/-- C4: the activity window starts as 60 zeros; every `updateChart v` drops
the oldest sample and appends `v`; after any pushes `vs` the window has
length 60 and holds the last 60 elements of the initial zeros followed by
`vs`; once 60 or more samples have been pushed it holds exactly the last 60
of them, in arrival order. -/
theorem activity_window_fifo (html : Html) (vs : List ℚ) (v : ℚ) :
    (initialState html).chartData = List.replicate 60 0 ∧
      (pushSamples (initialState html) vs).chartData.length = 60 ∧
      (pushSamples (initialState html) vs).chartData
        = (List.replicate 60 0 ++ vs).drop vs.length ∧
      (updateChart (pushSamples (initialState html) vs) v).chartData
        = (pushSamples (initialState html) vs).chartData.drop 1 ++ [v] ∧
      (60 ≤ vs.length →
        (pushSamples (initialState html) vs).chartData = vs.drop (vs.length - 60)) := by
  have h0 : (initialState html).chartData = List.replicate 60 0 := rfl
  have hne : (initialState html).chartData ≠ [] := by rw [h0]; simp
  refine ⟨h0, ?_, ?_, ?_, ?_⟩
  · rw [pushSamples_length _ _ hne, h0]; simp
  · rw [pushSamples_chartData _ _ hne, h0]
  · simp [updateChart]
  · intro hl
    rw [pushSamples_chartData _ _ hne, h0, List.drop_append_eq_append_drop]
    simp [List.drop_eq_nil_of_le, hl]

/-- Witness of C4: after the 61 pushes 0, 1, ..., 60 the window holds the
pushes 2 to 61 (the values 1 to 60). -/
theorem activity_window_fifo_witness :
    60 ≤ sampleRun.length ∧
      (pushSamples (initialState sampleHtml) sampleRun).chartData
        = sampleRun.drop (sampleRun.length - 60) :=
  ⟨by simp only [sampleRun, List.length_map, List.length_range]; omega,
    (activity_window_fifo sampleHtml sampleRun 0).2.2.2.2
      (by simp only [sampleRun, List.length_map, List.length_range]; omega)⟩

/-- C5: when the input field is empty or holds only white space (the code
points `trim` removes), `runInference` returns the state as it is, in every
state: no turn is appended, the generator is not called, and
`isGenerating`, `abortController`, the transcript and the field's value are
as before. -/
theorem blank_input_is_ignored (s : State)
    (h : ∀ c ∈ s.inputValue.data, isJsWhitespace c = true) :
    runInference s = s ∧ step s (.user .send) = s :=
  have e : runInference s = s := runInference_blocked s (Or.inl (jsTrim_whitespace _ h))
  ⟨e, e⟩

/-- Witness of C5: a field holding a space, a tab, a no-break space and a
line feed, submitted in a state where the model is loaded. -/
theorem blank_input_is_ignored_witness :
    runInference { readyState with inputValue := " \t\u00A0\n" }
      = { readyState with inputValue := " \t\u00A0\n" } :=
  (blank_input_is_ignored { readyState with inputValue := " \t\u00A0\n" } (by decide)).1

/-- C6: in any reachable state where the model is loaded, nothing is being
generated and the trimmed input `u` is not empty, submit, let any events
happen that do not settle the generator promise, and let the promise be
fulfilled with the text `g`.  Then the transcript has gained the user entry
`u` followed by the assistant entry `g`, the history has gained exactly the
turns `user: u` and `assistant: g` in that order, and the controller is
`Ready` with the model loaded and nothing suspended. -/
theorem successful_generation (html : Html) (evs0 evs : List Event) (g : String)
    (h1 : jsTrim (run (boot html) evs0).inputValue ≠ "")
    (h2 : (run (boot html) evs0).generator = true)
    (h3 : (run (boot html) evs0).isGenerating = false)
    (he : ∀ e ∈ evs, e.isGeneratorSettled = false) :
    (step (run (runInference (run (boot html) evs0)) evs)
        (.generatorSettled 0 (.resolved g))).chat
        = (run (boot html) evs0).chat ++
          [Message.mk "message user-msg" (jsTrim (run (boot html) evs0).inputValue),
            Message.mk "message ai-msg" g] ∧
      (step (run (runInference (run (boot html) evs0)) evs)
        (.generatorSettled 0 (.resolved g))).chatHistory
        = (run (boot html) evs0).chatHistory ++
          [Turn.mk "user" (jsTrim (run (boot html) evs0).inputValue), Turn.mk "assistant" g] ∧
      Ready (step (run (runInference (run (boot html) evs0)) evs)
        (.generatorSettled 0 (.resolved g))) ∧
      (step (run (runInference (run (boot html) evs0)) evs)
        (.generatorSettled 0 (.resolved g))).generator = true ∧
      (step (run (runInference (run (boot html) evs0)) evs)
        (.generatorSettled 0 (.resolved g))).sessions = [] := by
  have hi := inv_run (inv_boot html) evs0
  have hm := midRun_run (midRun_start hi h1 h2 h3) evs he
  rcases midRun_settle hm (.resolved g) with ⟨k, e⟩
  rw [e]
  have hf := resume_fields { run (runInference (run (boot html) evs0)) evs with sessions := [] }
    (Session.mk ((run (boot html) evs0).chat.length + 1) k) (.resolved g)
  simp only at hf
  refine ⟨?_, ?_, ⟨hf.1, hf.2.1, hf.2.2.1, hf.2.2.2.1, hf.2.2.2.2.1⟩, ?_, hf.2.2.2.2.2.1⟩
  · simp [runInferenceResume, toggleButtons, hm.chat, setTextContent_pending]
  · simp [runInferenceResume, toggleButtons, hm.chatHistory]
  · rw [hf.2.2.2.2.2.2.1]; exact hm.generator

/-- Witness of C6: "Hello" is submitted with an empty history, two steps are
generated, and the generation completes with "Hi there"; the history then
has the two turns. -/
theorem successful_generation_witness :
    (step (run (runInference readyState) [.callback 0 0, .callback 0 1])
        (.generatorSettled 0 (.resolved "Hi there"))).chatHistory
        = readyState.chatHistory ++
          [Turn.mk "user" (jsTrim readyState.inputValue), Turn.mk "assistant" "Hi there"] ∧
      readyState.chatHistory = [] ∧ jsTrim readyState.inputValue = "Hello" :=
  ⟨(successful_generation sampleHtml [.pipelineSettled .resolved, .user (.input "Hello")]
      [.callback 0 0, .callback 0 1] "Hi there" (by decide) (by decide) (by decide)
      (by decide)).2.1,
    by decide, by decide⟩

/-- Counterexample to C7: "Hello" is submitted, the user triggers
`stopInference` while the call is pending, and the generator then fulfils its
promise with "Hi there" without running the callback again.  The pending
entry shows "Hi there" without any stop annotation and the assistant turn is
appended to the history.  Likewise, when after the stop request the promise
is rejected with another error, the entry shows that error and no stop
annotation. -/
theorem cancel_before_completion_counterexample :
    lastText (run readyState
        [.user .send, .user .stop, .generatorSettled 0 (.resolved "Hi there")]) = "Hi there" ∧
      endsWithStopped (lastText (run readyState
        [.user .send, .user .stop, .generatorSettled 0 (.resolved "Hi there")])) = false ∧
      (run readyState
        [.user .send, .user .stop, .generatorSettled 0 (.resolved "Hi there")]).chatHistory
        = [Turn.mk "user" "Hello", Turn.mk "assistant" "Hi there"] ∧
      ¬ ((run readyState
        [.user .send, .user .stop, .generatorSettled 0 (.resolved "Hi there")]).chatHistory
        = readyState.chatHistory ++ [Turn.mk "user" "Hello"]) ∧
      lastText (run readyState
        [.user .send, .user .stop,
          .generatorSettled 0 (.rejected (.withMessage "out of memory"))])
        = "Error: out of memory" := by
  decide

/-- C7, amended: after a submission from a reachable state (model loaded,
nothing being generated, trimmed input `u` not empty), if `stopInference`
runs while the call is pending, then the next run of the callback throws the
error with message `Generation stopped by user`, and when the generator
promise is rejected with that error the pending entry reads
`Thinking... [STOPPED]`, the history is the prior history plus the user turn
only, and the controller is `Ready`. -/
theorem cancel_takes_effect_at_next_step (html : Html) (evs0 evs1 evs2 : List Event)
    (random : ℚ)
    (h1 : jsTrim (run (boot html) evs0).inputValue ≠ "")
    (h2 : (run (boot html) evs0).generator = true)
    (h3 : (run (boot html) evs0).isGenerating = false)
    (he1 : ∀ e ∈ evs1, e.isGeneratorSettled = false)
    (he2 : ∀ e ∈ evs2, e.isGeneratorSettled = false) :
    (∀ sess ∈ (run (runInference (run (boot html) evs0))
          (evs1 ++ [.user .stop] ++ evs2)).sessions,
        callback_function
          (run (runInference (run (boot html) evs0)) (evs1 ++ [.user .stop] ++ evs2))
          sess random = .error (.withMessage "Generation stopped by user")) ∧
      (step (run (runInference (run (boot html) evs0)) (evs1 ++ [.user .stop] ++ evs2))
        (.generatorSettled 0 (.rejected (.withMessage "Generation stopped by user")))).chat
        = (run (boot html) evs0).chat ++
          [Message.mk "message user-msg" (jsTrim (run (boot html) evs0).inputValue),
            Message.mk "message ai-msg" "Thinking... [STOPPED]"] ∧
      (step (run (runInference (run (boot html) evs0)) (evs1 ++ [.user .stop] ++ evs2))
        (.generatorSettled 0 (.rejected (.withMessage "Generation stopped by user")))).chatHistory
        = (run (boot html) evs0).chatHistory ++
          [Turn.mk "user" (jsTrim (run (boot html) evs0).inputValue)] ∧
      Ready (step (run (runInference (run (boot html) evs0)) (evs1 ++ [.user .stop] ++ evs2))
        (.generatorSettled 0 (.rejected (.withMessage "Generation stopped by user")))) := by
  have hi := inv_run (inv_boot html) evs0
  have hm1 := midRun_run (midRun_start hi h1 h2 h3) evs1 he1
  have hm2 := midRun_run (midRun_stop hm1) evs2 he2
  have hrun : run (runInference (run (boot html) evs0)) (evs1 ++ [.user .stop] ++ evs2)
      = run (step (run (runInference (run (boot html) evs0)) evs1) (.user .stop)) evs2 := by
    rw [run_append, run_append]; rfl
  rw [hrun]
  rcases hm2.abort with ⟨b, hb, hb2⟩
  have hb3 : b = true := hb2 rfl
  subst hb3
  rcases midRun_settle hm2 (.rejected (.withMessage "Generation stopped by user")) with ⟨k, e⟩
  rw [e]
  have hf := resume_fields
    { run (step (run (runInference (run (boot html) evs0)) evs1) (.user .stop)) evs2 with
      sessions := [] }
    (Session.mk ((run (boot html) evs0).chat.length + 1) k)
    (.rejected (.withMessage "Generation stopped by user"))
  simp only at hf
  refine ⟨?_, ?_, ?_, ⟨hf.1, hf.2.1, hf.2.2.1, hf.2.2.2.1, hf.2.2.2.2.1⟩⟩
  · intro sess _
    simp [callback_function, hb, stoppedMessage]
  · simp [runInferenceResume, toggleButtons, stoppedMessage, hm2.chat, setTextContent_pending]
  · simp [runInferenceResume, toggleButtons, stoppedMessage, hm2.chatHistory]

/-- Witness of C7, amended: "Hello" is submitted, one step is generated, the
user stops, and the promise is rejected with the callback's error. -/
theorem cancel_takes_effect_at_next_step_witness :
    (step (run (runInference readyState) ([.callback 0 0] ++ [.user .stop] ++ []))
        (.generatorSettled 0 (.rejected (.withMessage "Generation stopped by user")))).chat
        = readyState.chat ++
          [Message.mk "message user-msg" (jsTrim readyState.inputValue),
            Message.mk "message ai-msg" "Thinking... [STOPPED]"] :=
  (cancel_takes_effect_at_next_step sampleHtml
      [.pipelineSettled .resolved, .user (.input "Hello")] [.callback 0 0] [] 0
      (by decide) (by decide) (by decide) (by decide) (by decide)).2.1

/-- Counterexample to C8: "Hello" is submitted, `stopInference` is never
invoked, and the generator promise is rejected with an error whose message
happens to be `Generation stopped by user`.  The pending entry becomes
`Thinking... [STOPPED]`, not `Error: Generation stopped by user`.  Likewise,
when the promise is rejected with `null` or `undefined`, reading
`error.message` throws inside the `catch` block and the pending entry stays
`Thinking...`: no error message is shown. -/
theorem generation_error_counterexample :
    lastText (run readyState
        [.user .send,
          .generatorSettled 0 (.rejected (.withMessage "Generation stopped by user"))])
        = "Thinking... [STOPPED]" ∧
      lastText (run readyState
        [.user .send,
          .generatorSettled 0 (.rejected (.withMessage "Generation stopped by user"))])
        ≠ "Error: " ++ "Generation stopped by user" ∧
      lastText (run readyState [.user .send, .generatorSettled 0 (.rejected .nullish)])
        = "Thinking..." := by
  decide

/-- C8, amended: after a submission from a reachable state (model loaded,
nothing being generated, trimmed input `u` not empty) and any events that do
not settle the generator promise (in particular when `stopInference` never
runs), a rejection with any thrown value appends no assistant turn (the
history is the prior history plus the user turn) and leaves the controller
`Ready`.  If moreover the thrown value is not `null` or `undefined`, so that
reading its `message` gives a text `m`, and it is not an error whose message
is the string `Generation stopped by user`, then the pending entry is set to
`Error: ` followed by `m`. -/
theorem generation_error_is_shown (html : Html) (evs0 evs : List Event) (error : Thrown)
    (h1 : jsTrim (run (boot html) evs0).inputValue ≠ "")
    (h2 : (run (boot html) evs0).generator = true)
    (h3 : (run (boot html) evs0).isGenerating = false)
    (he : ∀ e ∈ evs, e.isGeneratorSettled = false) :
    (step (run (runInference (run (boot html) evs0)) evs)
        (.generatorSettled 0 (.rejected error))).chatHistory
        = (run (boot html) evs0).chatHistory ++
          [Turn.mk "user" (jsTrim (run (boot html) evs0).inputValue)] ∧
      Ready (step (run (runInference (run (boot html) evs0)) evs)
        (.generatorSettled 0 (.rejected error))) ∧
      (∀ m, error.messageText = some m →
        error ≠ .withMessage "Generation stopped by user" →
        (step (run (runInference (run (boot html) evs0)) evs)
          (.generatorSettled 0 (.rejected error))).chat
          = (run (boot html) evs0).chat ++
            [Message.mk "message user-msg" (jsTrim (run (boot html) evs0).inputValue),
              Message.mk "message ai-msg" ("Error: " ++ m)]) := by
  have hi := inv_run (inv_boot html) evs0
  have hmid := midRun_run (midRun_start hi h1 h2 h3) evs he
  rcases midRun_settle hmid (.rejected error) with ⟨k, e⟩
  rw [e]
  have hf := resume_fields { run (runInference (run (boot html) evs0)) evs with sessions := [] }
    (Session.mk ((run (boot html) evs0).chat.length + 1) k) (.rejected error)
  simp only at hf
  refine ⟨?_, ⟨hf.1, hf.2.1, hf.2.2.1, hf.2.2.2.1, hf.2.2.2.2.1⟩, ?_⟩
  · rcases error with m | r | _
    · by_cases hm : m = stoppedMessage <;>
        simp [runInferenceResume, toggleButtons, hm, hmid.chatHistory]
    · simp [runInferenceResume, toggleButtons, hmid.chatHistory]
    · simp [runInferenceResume, toggleButtons, hmid.chatHistory]
  · intro m hm hne
    rcases error with m1 | r | _
    · have hm1 : m1 = m := by simpa [Thrown.messageText] using hm
      subst hm1
      have hm2 : ¬ m1 = stoppedMessage := fun hc => hne (by rw [hc]; rfl)
      simp [runInferenceResume, toggleButtons, hm2, hmid.chat, setTextContent_pending]
    · have hr : r = m := by simpa [Thrown.messageText] using hm
      subst hr
      simp [runInferenceResume, toggleButtons, hmid.chat, setTextContent_pending]
    · simp [Thrown.messageText] at hm

/-- Witness of C8, amended: "Hello" is submitted and the generator fails
with the message "out of memory"; the entry reads `Error: out of memory`,
the history holds the user turn only and the controller is `Ready`. -/
theorem generation_error_is_shown_witness :
    (step (run (runInference readyState) [])
        (.generatorSettled 0 (.rejected (.withMessage "out of memory")))).chat
        = readyState.chat ++
          [Message.mk "message user-msg" (jsTrim readyState.inputValue),
            Message.mk "message ai-msg" ("Error: " ++ "out of memory")] ∧
      (step (run (runInference readyState) [])
        (.generatorSettled 0 (.rejected (.withMessage "out of memory")))).chatHistory
        = readyState.chatHistory ++ [Turn.mk "user" (jsTrim readyState.inputValue)] ∧
      Ready (step (run (runInference readyState) [])
        (.generatorSettled 0 (.rejected (.withMessage "out of memory")))) :=
  have h := generation_error_is_shown sampleHtml
    [.pipelineSettled .resolved, .user (.input "Hello")] [] (.withMessage "out of memory")
    (by decide) (by decide) (by decide) (by decide)
  ⟨h.2.2 "out of memory" rfl (by decide), h.1, h.2.1⟩

/-- C9: let the page load, let the user do anything while the model is
loading, and let the `pipeline` promise be rejected.  Then, after any further
events, the status reads `ERROR`, `sendBtn.disabled` still has the value the
document gave it, the model is absent, nothing is or was being generated
(no suspended activation, empty history, no generator call), and a call of
`runInference` returns the state as it is for every input text. -/
theorem failed_initialisation_is_terminal (html : Html) (evs1 : List UserEvent)
    (error : Thrown) (gpu : Bool) (evs2 : List Event) (v : String) :
    (run (boot html)
        (evs1.map Event.user ++ [.pipelineSettled (.rejected error gpu)] ++ evs2)).statusText
        = "ERROR" ∧
      (run (boot html)
        (evs1.map Event.user ++ [.pipelineSettled (.rejected error gpu)] ++ evs2)).sendDisabled
        = html.sendDisabled ∧
      (run (boot html)
        (evs1.map Event.user ++ [.pipelineSettled (.rejected error gpu)] ++ evs2)).generator
        = false ∧
      (run (boot html)
        (evs1.map Event.user ++ [.pipelineSettled (.rejected error gpu)] ++ evs2)).isGenerating
        = false ∧
      (run (boot html)
        (evs1.map Event.user ++ [.pipelineSettled (.rejected error gpu)] ++ evs2)).sessions
        = [] ∧
      (run (boot html)
        (evs1.map Event.user ++ [.pipelineSettled (.rejected error gpu)] ++ evs2)).chatHistory
        = [] ∧
      (run (boot html)
        (evs1.map Event.user ++ [.pipelineSettled (.rejected error gpu)] ++ evs2)).generatorCalls
        = [] ∧
      runInference
        { run (boot html)
            (evs1.map Event.user ++ [.pipelineSettled (.rejected error gpu)] ++ evs2) with
          inputValue := v }
        = { run (boot html)
            (evs1.map Event.user ++ [.pipelineSettled (.rejected error gpu)] ++ evs2) with
          inputValue := v } := by
  have hrun : run (boot html)
      (evs1.map Event.user ++ [.pipelineSettled (.rejected error gpu)] ++ evs2)
      = run (step (run (boot html) (evs1.map Event.user))
          (.pipelineSettled (.rejected error gpu))) evs2 := by
    rw [run_append, run_append]; rfl
  rw [hrun]
  have hf := failed_run (failed_of_rejected (loading_run (loading_boot html) evs1) error gpu) evs2
  exact ⟨hf.statusText, hf.sendDisabled, hf.generator, hf.isGenerating, hf.sessions,
    hf.chatHistory, hf.generatorCalls, runInference_blocked _ (Or.inr (Or.inl hf.generator))⟩

/-- C10: when the guard of `runInference` passes with trimmed input `u` and
prior history `H`, the one prompt handed to the generator is the preamble,
the blocks of the last `min 2 |H|` turns of `H`, the block of the new user
turn twice in a row, and the open assistant tag. -/
theorem prompt_repeats_user_turn (s : State) (h1 : jsTrim s.inputValue ≠ "")
    (h2 : s.generator = true) (h3 : s.isGenerating = false) :
    (runInference s).generatorCalls = s.generatorCalls ++
        ["<|im_start|>system\nYou are a helpful AI assistant.<|im_end|>\n" ++
          concatAll ((recent s.chatHistory 2).map renderTurn) ++
          ("<|im_start|>user\n" ++ jsTrim s.inputValue ++ "<|im_end|>\n") ++
          ("<|im_start|>user\n" ++ jsTrim s.inputValue ++ "<|im_end|>\n") ++
          "<|im_start|>assistant\n"] ∧
      (recent s.chatHistory 2).length = min 2 s.chatHistory.length ∧
      recent s.chatHistory 2 <:+ s.chatHistory := by
  refine ⟨?_, recent_length _ _, recent_suffix _ _⟩
  rw [runInference_pass s h1 h2 h3]
  have hr : recent (s.chatHistory ++ [Turn.mk "user" (jsTrim s.inputValue)]) 3
      = recent s.chatHistory 2 ++ [Turn.mk "user" (jsTrim s.inputValue)] := by
    rw [← sliceLast_eq_recent, ← sliceLast_eq_recent, sliceLast_snoc]
  simp only [hr, promptOf, List.map_append, List.map_cons, List.map_nil, concatAll_snoc,
    renderTurn, assistant_tag_split, String.append_assoc, user_tag_join]

/-- Witness of C10: "Hello" submitted with an empty history; the prompt
holds the user block twice and no earlier turn. -/
theorem prompt_repeats_user_turn_witness :
    (runInference readyState).generatorCalls = readyState.generatorCalls ++
        ["<|im_start|>system\nYou are a helpful AI assistant.<|im_end|>\n" ++
          concatAll ((recent readyState.chatHistory 2).map renderTurn) ++
          ("<|im_start|>user\n" ++ jsTrim readyState.inputValue ++ "<|im_end|>\n") ++
          ("<|im_start|>user\n" ++ jsTrim readyState.inputValue ++ "<|im_end|>\n") ++
          "<|im_start|>assistant\n"] :=
  (prompt_repeats_user_turn readyState (by decide) (by decide) (by decide)).1

end DeepDrift
